import Mathlib

/-!
Verification of the shopping-assistant MCP gateway (bmaranan75/shopping-assistant-mcp).

This file is a shallow embedding of the authentication, retry, dispatch and
discovery logic of the repository:

* src/mcp/tools.ts            - tool registry, auth verifier (verifyAuth,
                                verifyAccessToken, verifyUserToken), the SSE
                                server with its streaming and REST handlers
* src/lib/mcp/dual-token-auth.ts - verifyDualTokenAuth,
                                verifyClientCredentialsToken, verifyUserToken
* src/mcp/client.ts           - MCPAgentClient.callAgent retry loop
* src/mcp/openapi-schema.ts   - generateOpenAPISchema (the revision bundled
                                with the current src/mcp sources, which carries
                                the x-openai-isConsequential extension; an
                                earlier revision of the same module lacks it)

Cryptographic JWT verification (signature, exp, iss, aud) is performed by the
jsonwebtoken library in the source; the definitions below model the claim
validation the repository itself performs on the decoded payload after
jwt.verify succeeds, and abstract the library call as an oracle where a whole
verification step is passed around.
-/

/-! ## JavaScript truthiness helpers

The source chains claim lookups with the JavaScript logical-or operator, whose
semantics on string claims is: an absent claim and the empty string are falsy,
every other string is truthy. -/

/-- Truthiness of an optional string claim: absent and empty are falsy. -/
def jsTruthy : Option String → Bool
  | some s => !s.isEmpty
  | none => false

/-- JavaScript logical-or on optional string values: the first operand when it
is truthy, otherwise the second operand (even when that one is falsy). -/
def jsOr (a b : Option String) : Option String :=
  if jsTruthy a then a else b

/-- Right-nested chain of `jsOr`, used to state claim-name fallback orders. -/
def jsChain : List (Option String) → Option String
  | [] => none
  | [a] => a
  | a :: rest => jsOr a (jsChain rest)

/-- Characters of a split on the single-space separator, as the JavaScript
String split method behaves: the empty input yields one empty field, and
every space opens a new field. -/
def splitOnSpaceChars : List Char → List String
  | [] => [""]
  | c :: rest =>
    let r := splitOnSpaceChars rest
    if c = ' ' then "" :: r
    else
      match r with
      | [] => [String.mk [c]]
      | h :: t => String.mk (c :: h.data) :: t

/-- The JavaScript split on a single space, used by the source on the scope
claim. -/
def jsSplitSpace (s : String) : List String :=
  splitOnSpaceChars s.data

/-! ## Decoded JWT payload and environment-derived configuration -/

/-- Fields of a decoded JWT payload that the repository inspects. A claim that
is absent is `none`; the `scope` claim is modelled in its string form (the
space-delimited OAuth2 form the code tests with `typeof scope === string`),
and `scp` as the array form used by Azure AD. -/
structure JwtPayload where
  client_id : Option String := none
  azp : Option String := none
  appid : Option String := none
  cid : Option String := none
  sub : Option String := none
  gty : Option String := none
  scope : Option String := none
  scp : Option (List String) := none
  email : Option String := none
  upn : Option String := none
  name : Option String := none
deriving Repr

/-- Parsed ALLOWED_MCP_CLIENTS and REQUIRED_MCP_SCOPES configuration (the
source splits the raw environment strings on commas and trims; absent
variables yield empty lists). -/
structure AuthConfig where
  allowedClients : List String := []
  requiredScopes : List String := []
deriving Repr

/-- Result of a successful client-token verification: the resolved client id
and the extracted scope list. -/
structure ClientAuth where
  clientId : String
  scopes : List String
deriving DecidableEq, Repr

/-! ## Client-token claim validation, streaming server path

Embeds the claim checks of verifyAccessToken in src/mcp/tools.ts
(lines 176 to 209), performed after jwt.verify succeeds. -/

/-- Client id fallback chain of verifyAccessToken in src/mcp/tools.ts:
client_id, then azp, then appid, then cid, then sub. -/
def extractClientIdAccessToken (p : JwtPayload) : Option String :=
  jsOr p.client_id (jsOr p.azp (jsOr p.appid (jsOr p.cid p.sub)))

/-- Scope extraction of verifyAccessToken in src/mcp/tools.ts: the scope claim
split on spaces when it is a string, otherwise the scp array, otherwise
empty. -/
def extractScopesAccessToken (p : JwtPayload) : List String :=
  match p.scope with
  | some s => jsSplitSpace s
  | none => p.scp.getD []

/-- Claim validation of verifyAccessToken in src/mcp/tools.ts: resolve the
client id, enforce the allowlist when configured, extract scopes, enforce the
required scopes when configured. No grant-type claim is inspected on this
path. -/
def verifyAccessTokenClaims (cfg : AuthConfig) (p : JwtPayload) :
    Except String ClientAuth :=
  let clientId := extractClientIdAccessToken p
  if !jsTruthy clientId then
    .error "Client ID not found in token"
  else
    let c := clientId.getD ""
    if !cfg.allowedClients.isEmpty && !cfg.allowedClients.contains c then
      .error ("Unauthorized client: " ++ c)
    else
      let scopes := extractScopesAccessToken p
      if !cfg.requiredScopes.isEmpty &&
          !(cfg.requiredScopes.all fun s => scopes.contains s) then
        .error ("Missing required scopes. Required: " ++
          String.intercalate ", " cfg.requiredScopes)
      else
        .ok { clientId := c, scopes := scopes }

/-! ## Client-token claim validation, dual-token path

Embeds the claim checks of verifyClientCredentialsToken in
src/lib/mcp/dual-token-auth.ts (lines 147 to 184). -/

/-- Client id fallback chain of verifyClientCredentialsToken in
src/lib/mcp/dual-token-auth.ts: cid, then azp, then client_id, then sub.
There is no appid fallback on this path. -/
def extractClientIdClientCredentials (p : JwtPayload) : Option String :=
  jsOr p.cid (jsOr p.azp (jsOr p.client_id p.sub))

/-- Claim validation of verifyClientCredentialsToken in
src/lib/mcp/dual-token-auth.ts: a present grant-type claim other than
client-credentials is rejected, then client id, allowlist and scopes are
checked. The scope claim here is the string form only (no scp fallback). -/
def verifyClientCredentialsClaims (cfg : AuthConfig) (p : JwtPayload) :
    Except String ClientAuth :=
  if jsTruthy p.gty && p.gty != some "client-credentials" then
    .error "Invalid grant type - expected client-credentials"
  else
    let clientId := extractClientIdClientCredentials p
    if !jsTruthy clientId then
      .error "Client ID not found in token"
    else
      let c := clientId.getD ""
      if !cfg.allowedClients.isEmpty && !cfg.allowedClients.contains c then
        .error ("Unauthorized client: " ++ c)
      else
        let scopes :=
          match p.scope with
          | some s => jsSplitSpace s
          | none => []
        if !cfg.requiredScopes.isEmpty &&
            !(cfg.requiredScopes.all fun s => scopes.contains s) then
          .error ("Missing required scopes. Required: " ++
            String.intercalate ", " cfg.requiredScopes)
        else
          .ok { clientId := c, scopes := scopes }

/-! ## User-token claim validation -/

/-- Result of a successful user-token verification on the dual-token path. -/
structure UserAuthInfo where
  userId : String
  email : Option String := none
  name : Option String := none
  rawToken : String
deriving DecidableEq, Repr

/-- Claim validation of verifyUserToken in src/lib/mcp/dual-token-auth.ts
(lines 224 to 240): a client-credentials grant is rejected as a user token,
and the subject claim is mandatory. -/
def verifyUserTokenClaimsDual (token : String) (p : JwtPayload) :
    Except String UserAuthInfo :=
  if p.gty == some "client-credentials" then
    .error "User token cannot be a client credentials token"
  else if !jsTruthy p.sub then
    .error "User ID (sub) not found in token"
  else
    .ok { userId := p.sub.getD "", email := p.email, name := p.name,
          rawToken := token }

/-- Result of a successful user-token verification on the streaming server
path. -/
structure MCPUserAuth where
  userId : String
  email : Option String := none
deriving DecidableEq, Repr

/-- Claim validation of verifyUserToken in src/mcp/tools.ts (lines 253 to
262): only the subject claim is mandatory; no grant-type claim is
inspected. -/
def verifyUserTokenClaimsMcp (p : JwtPayload) : Except String MCPUserAuth :=
  if !jsTruthy p.sub then
    .error "User ID (sub) not found in token"
  else
    .ok { userId := p.sub.getD "", email := jsOr p.email p.upn }

/-- Wording of the specification for the scope failure: an error that names
the set of scopes that are actually missing from the token. Modelled from the
spec for comparison with the message the code produces. -/
def specMissingScopesMessage (missing : List String) : String :=
  "Missing required scopes. Required: " ++ String.intercalate ", " missing

/-! ## Dual-token authentication flow

Embeds verifyDualTokenAuth in src/lib/mcp/dual-token-auth.ts (lines 75 to
120). The two token verifications are passed as oracles standing for the full
verifyClientCredentialsToken and verifyUserToken calls (whose claim stages are
modelled above). -/

/-- Authentication method recorded in the context. -/
inductive AuthMethod
  | dualToken
  | clientOnly
deriving DecidableEq, Repr

/-- AuthContext of src/lib/mcp/dual-token-auth.ts: client identity plus the
optional user identity carried by the dual-token pattern. -/
structure AuthContext where
  clientId : String
  clientScopes : List String
  userId : Option String := none
  userEmail : Option String := none
  userName : Option String := none
  userToken : Option String := none
  authMethod : AuthMethod
deriving DecidableEq, Repr

/-- The startsWith test against the Bearer marker used at every header
inspection site, stated over the character lists so that it evaluates by
kernel reduction. -/
def startsWithBearer (s : String) : Bool :=
  "Bearer ".data.isPrefixOf s.data

/-- Strips a Bearer marker from a user-token header value when present,
as both user-token call sites do. -/
def stripBearer (h : String) : String :=
  if startsWithBearer h then h.drop 7 else h

/-- Step 3 of verifyDualTokenAuth (lines 104 to 117): the AuthContext built
from the client verification result and the optional user verification
result; the user fields are only set when the user verification
succeeded. -/
def buildAuthContext (clientAuth : ClientAuth) (userAuth : Option UserAuthInfo) :
    AuthContext :=
  { clientId := clientAuth.clientId
    clientScopes := clientAuth.scopes
    userId := userAuth.map (fun u => u.userId)
    userEmail := userAuth.bind (fun u => u.email)
    userName := userAuth.bind (fun u => u.name)
    userToken := userAuth.map (fun u => u.rawToken)
    authMethod := if userAuth.isSome then .dualToken else .clientOnly }

/-- verifyDualTokenAuth of src/lib/mcp/dual-token-auth.ts: the Authorization
header must carry a Bearer client token, which must verify; an X-User-Token
header (or X-Forwarded-User-Token fallback) is verified when present, and a
failure there is swallowed, leaving the context in client-only form. -/
def verifyDualTokenAuth (authHeader xUserToken xForwardedUserToken : Option String)
    (verifyClient : String → Except String ClientAuth)
    (verifyUser : String → Except String UserAuthInfo) :
    Except String AuthContext :=
  match authHeader with
  | none =>
    .error "Missing or invalid Authorization header. Expected: Bearer <client_credentials_token>"
  | some h =>
    if !startsWithBearer h then
      .error "Missing or invalid Authorization header. Expected: Bearer <client_credentials_token>"
    else
      match verifyClient (h.drop 7) with
      | .error e => .error e
      | .ok clientAuth =>
        let userTokenHeader := jsOr xUserToken xForwardedUserToken
        let userAuth : Option UserAuthInfo :=
          if jsTruthy userTokenHeader then
            (verifyUser (stripBearer (userTokenHeader.getD ""))).toOption
          else
            none
        .ok (buildAuthContext clientAuth userAuth)

/-! ## Streaming-server authentication entry point

Embeds verifyAuth in src/mcp/tools.ts (lines 277 to 365). -/

/-- Request headers the verifier inspects. -/
structure RequestHeaders where
  authorization : Option String := none
  xUserToken : Option String := none
  xMcpApiKey : Option String := none
deriving Repr

/-- Environment configuration of the verifier: MCP_AUTH_MODE (defaulted to
oauth2 by the source when unset) and MCP_API_KEY. -/
structure AuthEnv where
  authMode : String := "oauth2"
  mcpApiKey : Option String := none
deriving Repr

/-- AuthResult of src/mcp/tools.ts. -/
structure AuthResult where
  success : Bool
  accessToken : Option String := none
  userToken : Option String := none
  clientId : Option String := none
  userId : Option String := none
  error : Option String := none
deriving DecidableEq, Repr

/-- Truthiness of the optional-chained startsWith test on the Authorization
header. -/
def hasBearerToken (h : Option String) : Bool :=
  match h with
  | some a => startsWithBearer a
  | none => false

/-- verifyAuth of src/mcp/tools.ts: mode none short-circuits to success before
any header is read; otherwise the OAuth2 branch runs when a Bearer header is
present and the mode allows it, with the optional user token swallowing its
own failures; otherwise the legacy API-key branch runs; otherwise the request
is rejected. The two token verifications are oracles standing for
verifyAccessToken and verifyUserToken of the same file. -/
def verifyAuth (env : AuthEnv) (hdrs : RequestHeaders)
    (verifyAccess : String → Except String ClientAuth)
    (verifyUser : String → Except String MCPUserAuth) : AuthResult :=
  if env.authMode == "none" then
    { success := true }
  else
    let hasOAuthToken := hasBearerToken hdrs.authorization
    if hasOAuthToken && (env.authMode == "oauth2" || env.authMode == "hybrid") then
      let accessToken := (hdrs.authorization.getD "").drop 7
      match verifyAccess accessToken with
      | .error e =>
        { success := false, error := some ("OAuth2 authentication failed: " ++ e) }
      | .ok ca =>
        let userPair : Option (String × String) :=
          match hdrs.xUserToken with
          | none => none
          | some uh =>
            let t := stripBearer uh
            match verifyUser t with
            | .ok ua => some (ua.userId, t)
            | .error _ => none
        { success := true
          accessToken := some accessToken
          userToken := userPair.map (fun p => p.2)
          clientId := some ca.clientId
          userId := userPair.map (fun p => p.1) }
    else
      if env.authMode == "api-key" || env.authMode == "hybrid" then
        match env.mcpApiKey with
        | none => { success := false, error := some "MCP authentication not configured" }
        | some expected =>
          if hdrs.xMcpApiKey == some expected then
            { success := true }
          else if !hasOAuthToken then
            { success := false, error := some "Invalid or missing API key" }
          else
            { success := false, error := some "No valid authentication provided" }
      else
        { success := false, error := some "No valid authentication provided" }

/-- Gate applied by both the /sse handler (line 775) and the /tools/ handler
(line 813): a request whose AuthResult is unsuccessful is answered with a 401
challenge via sendAuthError and goes no further. -/
def requestRejected (r : AuthResult) : Bool :=
  !r.success

/-! ## Backend client retry loop

Embeds MCPAgentClient.callAgent in src/mcp/client.ts (lines 33 to 87). The
per-attempt fetch is an oracle from the attempt index to its outcome; the
trace records the timeout budget handed to each fetch, the backoff sleeps
performed, and the final outcome. -/

/-- Outcome of one fetch attempt: a parsed response body, or the message of
the error thrown (network error, abort on timeout, or the thrown non-2xx
HTTP status error). -/
inductive FetchOutcome
  | success (body : String)
  | failure (message : String)
deriving DecidableEq, Repr

/-- The timeout handed to every fetch attempt: AbortSignal.timeout(30000). -/
def fetchTimeoutMs : Nat := 30000

deriving instance DecidableEq for Except

/-- Observable trace of one callAgent invocation. An outcome of ok none
models the undefined value a fully skipped loop would return. -/
structure CallTrace where
  timeouts : List Nat := []
  waits : List Nat := []
  outcome : Except String (Option String) := .ok none
deriving DecidableEq, Repr

/-- The body of the callAgent for-loop, fuelled by the number of remaining
iterations: attempt the fetch; on success return the body; on the last
allowed attempt fail with the aggregated message; otherwise sleep
1000 * 2 ^ attempt and continue. -/
def callAgentLoop (oracle : Nat → FetchOutcome) (retries : Nat) :
    Nat → Nat → CallTrace
  | _, 0 => {}
  | attempt, fuel + 1 =>
    if attempt < retries then
      match oracle attempt with
      | .success body =>
        { timeouts := [fetchTimeoutMs], waits := [], outcome := .ok (some body) }
      | .failure msg =>
        if attempt == retries - 1 then
          { timeouts := [fetchTimeoutMs], waits := []
            outcome := .error ("Failed after " ++ toString retries ++ " attempts: " ++ msg) }
        else
          let rest := callAgentLoop oracle retries (attempt + 1) fuel
          { timeouts := fetchTimeoutMs :: rest.timeouts
            waits := 1000 * 2 ^ attempt :: rest.waits
            outcome := rest.outcome }
    else {}

/-- callAgent with its default retry count of 3, the only form the servers
use. -/
def callAgent (oracle : Nat → FetchOutcome) : CallTrace :=
  callAgentLoop oracle 3 0 3

/-! ## Tool registry

Embeds mcpTools of src/mcp/tools.ts (lines 7 to 99). Property descriptions,
enums and defaults inside the JSON schemas are summarised to the property
names and types; no claim depends on them. -/

/-- One property of a tool input schema. -/
structure PropertySpec where
  name : String
  type : String
deriving DecidableEq, Repr

/-- A tool input schema: its JSON type, its properties and its required
list. -/
structure InputSchema where
  type : String
  properties : List PropertySpec := []
  required : List String := []
deriving DecidableEq, Repr

/-- A tool definition: name, description and input schema. -/
structure ToolDef where
  name : String
  description : String
  inputSchema : InputSchema
deriving DecidableEq, Repr

/-- The static tool registry, resolved once at module load. -/
def mcpTools : List ToolDef :=
  [ { name := "search_products"
      description := "Search the Safeway product catalog for items. Returns product details including name, price, and availability."
      inputSchema :=
        { type := "object"
          properties :=
            [ { name := "query", type := "string" }
              , { name := "category", type := "string" }
              , { name := "limit", type := "number" } ]
          required := ["query"] } }
    , { name := "add_to_cart"
        description := "Add a product to the shopping cart"
        inputSchema :=
          { type := "object"
            properties :=
              [ { name := "productCode", type := "string" }
                , { name := "quantity", type := "number" } ]
            required := ["productCode"] } }
    , { name := "view_cart"
        description := "View current shopping cart contents"
        inputSchema := { type := "object" } }
    , { name := "checkout"
        description := "Complete checkout with CIBA (Client Initiated Backchannel Authentication) authorization"
        inputSchema :=
          { type := "object"
            properties := [ { name := "cartSummary", type := "string" } ] } }
    , { name := "add_payment_method"
        description := "Add a new payment method with authorization"
        inputSchema :=
          { type := "object"
            properties := [ { name := "type", type := "string" } ]
            required := ["type"] } }
    , { name := "get_deals"
        description := "Get current deals and promotions available at Safeway"
        inputSchema :=
          { type := "object"
            properties := [ { name := "category", type := "string" } ] } } ]

/-- The tools/list response body built by the ListToolsRequestSchema handler
in src/mcp/tools.ts (lines 489 to 493): each registry entry mapped to its
name, description and input schema. Parameterised by the registry it reads;
the server instantiates it with mcpTools. -/
def listToolsResponse (reg : List ToolDef) : List ToolDef :=
  reg.map fun tool =>
    { name := tool.name
      description := tool.description
      inputSchema := tool.inputSchema }

/-! ## Tool dispatch, both protocol surfaces

Embeds the CallToolRequestSchema handler of src/mcp/tools.ts (lines 513 to
609) and the REST /tools/ handler of the same file (lines 828 to 929). The
backend call is an oracle from the routed agent name to the extracted
response text or the thrown error message. -/

/-- The switch over tool names shared by both handlers, mapping each known
tool to the backend agent it is routed to. -/
def toolAgentRoute : String → Option String
  | "search_products" => some "catalog"
  | "add_to_cart" => some "cart"
  | "view_cart" => some "cart"
  | "checkout" => some "cart"
  | "add_payment_method" => some "payment"
  | "get_deals" => some "deals"
  | _ => none

/-- One content block of a tool result. -/
structure ToolContent where
  type : String
  text : String
deriving DecidableEq, Repr

/-- The tool result shape of both surfaces: content blocks and the isError
flag, which the success path leaves absent and the streaming error path sets
to true. -/
structure ToolCallResult where
  content : List ToolContent
  isError : Option Bool := none
deriving DecidableEq, Repr

/-- The streaming CallToolRequestSchema handler: route the tool, call the
backend and wrap the extracted text; any thrown error, including the unknown
tool error thrown by the default branch, is caught and returned as a tool
result with isError true and the message prefixed with Error. -/
def mcpCallToolHandler (callBackend : String → Except String String)
    (name : String) : ToolCallResult :=
  match toolAgentRoute name with
  | some agent =>
    match callBackend agent with
    | .ok text => { content := [{ type := "text", text := text }] }
    | .error e =>
      { content := [{ type := "text", text := "Error: " ++ e }]
        isError := some true }
  | none =>
    { content := [{ type := "text", text := "Error: " ++ ("Unknown tool: " ++ name) }]
      isError := some true }

/-- Body of a REST /tools/ response. -/
inductive RestBody
  | toolResult (r : ToolCallResult)
  | unknownTool (error : String)
  | internalError (message : String)
deriving DecidableEq, Repr

/-- An HTTP response of the REST surface. -/
structure HttpResponse where
  status : Nat
  body : RestBody
deriving DecidableEq, Repr

/-- The REST /tools/ handler after authentication and body parsing: an
unknown tool name is answered 404 before any backend call; a successful
backend call is answered 200 with the tool result shape and no isError
field; a thrown backend error is caught by the surrounding try and answered
500 with an internal server error body carrying the message. -/
def restToolHandler (callBackend : String → Except String String)
    (name : String) : HttpResponse :=
  match toolAgentRoute name with
  | none => { status := 404, body := .unknownTool ("Unknown tool: " ++ name) }
  | some agent =>
    match callBackend agent with
    | .ok text =>
      { status := 200
        body := .toolResult { content := [{ type := "text", text := text }] } }
    | .error e => { status := 500, body := .internalError e }

/-! ## OpenAPI document generation

Embeds generateOpenAPISchema of src/mcp/openapi-schema.ts (the revision
bundled with the current src/mcp sources), which the server exposes at
GET /.well-known/openapi.json. The source reads the module-level mcpTools;
the embedding is parameterised by the registry and instantiated with
mcpTools where the concrete document is concerned. -/

/-- convertJsonSchemaToOpenAPI: spreads the schema and defaults a falsy type
to object. -/
def convertJsonSchemaToOpenAPI (s : InputSchema) : InputSchema :=
  { s with type := if s.type.isEmpty then "object" else s.type }

/-- The tools the generator marks as consequential. -/
def consequentialTools : List String :=
  ["add_to_cart", "checkout", "add_payment_method"]

/-- One generated path operation: the POST operation object the generator
builds for a tool. -/
structure OpenAPIOperation where
  operationId : String
  summary : String
  description : String
  tags : List String
  deprecated : Bool
  requestBodySchema : InputSchema
  security : List (List (String × List String))
  xOpenaiIsConsequential : Option Bool
deriving DecidableEq, Repr

/-- The paths record of the generated document: one entry per registry tool,
keyed by /tools/ followed by the tool name. -/
def generateOpenAPIPaths (reg : List ToolDef) :
    List (String × OpenAPIOperation) :=
  reg.map fun tool =>
    ("/tools/" ++ tool.name,
      { operationId := tool.name
        summary := tool.description
        description := tool.description
        tags := ["shopping", "assistant"]
        deprecated := false
        requestBodySchema := convertJsonSchemaToOpenAPI tool.inputSchema
        security := [[("oauth2", [])]]
        xOpenaiIsConsequential :=
          some (consequentialTools.contains tool.name) })

/-- The generated OpenAPI document. -/
structure OpenAPIDocument where
  openapi : String
  title : String
  servers : List String
  paths : List (String × OpenAPIOperation)
  securitySchemeNames : List String
  security : List (List (String × List String))
deriving DecidableEq, Repr

/-- generateOpenAPISchema: an OpenAPI 3.0.0 document over the given server
URL with one POST path per registry tool, an oauth2 client-credentials
security scheme, and document-level oauth2 security. -/
def generateOpenAPISchema (reg : List ToolDef) (serverUrl : String) :
    OpenAPIDocument :=
  { openapi := "3.0.0"
    title := "Safeway Shopping Assistant"
    servers := [serverUrl]
    paths := generateOpenAPIPaths reg
    securitySchemeNames := ["oauth2"]
    security := [[("oauth2", [])]] }

/-! ## The shared backend client

Embeds the mutable token state of MCPAgentClient (src/mcp/client.ts lines 5
to 28 and 44 to 56) and the way the server stores tokens into it: the /sse
handler (src/mcp/tools.ts lines 783 to 790) and the /tools/ handler (lines
833 to 840) both call setAccessToken and setUserToken on the single
module-level agentClient created at startup (line 448). -/

/-- The mutable fields of the single module-level MCPAgentClient. -/
structure ClientState where
  accessToken : Option String := none
  userToken : Option String := none
deriving DecidableEq, Repr

/-- MCPAgentClient.setAccessToken. -/
def setAccessToken (s : ClientState) (t : String) : ClientState :=
  { s with accessToken := some t }

/-- MCPAgentClient.setUserToken. -/
def setUserToken (s : ClientState) (t : String) : ClientState :=
  { s with userToken := some t }

/-- Token storage performed by both request handlers on a successful
AuthResult: setAccessToken when an access token is present, then
setUserToken when a user token is present. -/
def storeAuthTokens (s : ClientState) (r : AuthResult) : ClientState :=
  let s1 :=
    match r.accessToken with
    | some t => setAccessToken s t
    | none => s
  match r.userToken with
  | some t => setUserToken s1 t
  | none => s1

/-- The headers callAgent sends, read from the client state at call time
(src/mcp/client.ts lines 44 to 56). -/
def callHeaders (s : ClientState) : List (String × String) :=
  [("Content-Type", "application/json")]
    ++ (match s.accessToken with
        | some t => [("Authorization", "Bearer " ++ t)]
        | none => [])
    ++ (match s.userToken with
        | some t => [("X-User-Token", "Bearer " ++ t)]
        | none => [])

/-- Events of the gateway that touch the shared client: a successful
authentication of some session or REST call stores its tokens; a tool
invocation issued by an already authenticated session reads the client state
as it is at that moment. The AuthResult carried by an invoke event is the
authentication context the invocation belongs to; the code never consults it
at call time, which is the point at issue. -/
inductive GatewayEvent
  | authenticate (r : AuthResult)
  | invoke (r : AuthResult)
deriving Repr

/-- Runs a sequence of gateway events over the shared client state and
records, for every invocation, the headers the backend call carries. -/
def runEvents : ClientState → List GatewayEvent → ClientState × List (List (String × String))
  | s, [] => (s, [])
  | s, .authenticate r :: rest => runEvents (storeAuthTokens s r) rest
  | s, .invoke _ :: rest =>
    let (s2, hs) := runEvents s rest
    (s2, callHeaders s :: hs)

/-! ## Claim C2: clientId resolution order -/

/-- A nonempty optional string is truthy. -/
theorem jsTruthy_some_of_ne {a : String} (h : a ≠ "") : jsTruthy (some a) = true := by
  cases hb : a.isEmpty with
  | false => simp [jsTruthy, hb]
  | true => exact absurd ((String.isEmpty_iff a).mp hb) h

/-- Concrete refutation of claim C2 as stated: on the dual-token
verification path (verifyClientCredentialsToken in
src/lib/mcp/dual-token-auth.ts), a token carrying both a client_id claim and
a cid claim resolves to the cid value, not the client_id value. -/
theorem C2_counterexample :
    verifyClientCredentialsClaims {}
        { client_id := some "client-a", cid := some "client-b" } =
      .ok { clientId := "client-b", scopes := [] } ∧
    ("client-b" : String) ≠ "client-a" :=
  ⟨rfl, by decide⟩

/-- Claim C2 (amended): the streaming-server path (verifyAccessToken in
src/mcp/tools.ts) resolves clientId by the ordered fallback chain client_id,
azp, appid, cid, sub, so a token with both client_id and cid yields
client_id there; the dual-token path (verifyClientCredentialsToken in
src/lib/mcp/dual-token-auth.ts) instead uses the chain cid, azp, client_id,
sub with no appid fallback, so the same token yields cid there. -/
theorem C2_clientId_resolution_order :
    (∀ p : JwtPayload,
        extractClientIdAccessToken p =
          jsChain [p.client_id, p.azp, p.appid, p.cid, p.sub]) ∧
    (∀ p : JwtPayload,
        extractClientIdClientCredentials p =
          jsChain [p.cid, p.azp, p.client_id, p.sub]) ∧
    (∀ (p : JwtPayload) (a b : String),
        p.client_id = some a → p.cid = some b → a ≠ "" → b ≠ "" →
        extractClientIdAccessToken p = some a ∧
        extractClientIdClientCredentials p = some b) := by
  refine ⟨fun p => rfl, fun p => rfl, ?_⟩
  intro p a b h1 h2 ha hb
  constructor
  · unfold extractClientIdAccessToken
    rw [h1]
    simp [jsOr, jsTruthy_some_of_ne ha]
  · unfold extractClientIdClientCredentials
    rw [h2]
    simp [jsOr, jsTruthy_some_of_ne hb]

/-- Witness for C2_clientId_resolution_order at a concrete payload. -/
theorem C2_clientId_resolution_order_witness :
    extractClientIdAccessToken
        { client_id := some "client-a", cid := some "client-b" } = some "client-a" ∧
    extractClientIdClientCredentials
        { client_id := some "client-a", cid := some "client-b" } = some "client-b" :=
  C2_clientId_resolution_order.2.2
    { client_id := some "client-a", cid := some "client-b" }
    "client-a" "client-b" rfl rfl (by decide) (by decide)

/-! ## Claim C5: grant-type checks -/

/-- Concrete refutation of claim C5 as stated: the streaming-server path
(verifyAccessToken in src/mcp/tools.ts) accepts a primary token whose gty
claim is present and differs from client-credentials. -/
theorem C5_counterexample :
    verifyAccessTokenClaims {} { sub := some "svc-1", gty := some "password" } =
      .ok { clientId := "svc-1", scopes := [] } ∧
    some "password" ≠ some "client-credentials" :=
  ⟨rfl, by decide⟩

/-- Claim C5 (amended): the dual-token module enforces both grant-type
rules (a present non-client-credentials gty fails the client token, a
client-credentials gty fails the user token), while the streaming-server
verifier in src/mcp/tools.ts performs no grant-type check at all on either
token: its outcome is invariant under the gty claim. -/
theorem C5_grant_type_checks :
    (∀ (cfg : AuthConfig) (p : JwtPayload) (g : String),
        p.gty = some g → g ≠ "" → g ≠ "client-credentials" →
        verifyClientCredentialsClaims cfg p =
          .error "Invalid grant type - expected client-credentials") ∧
    (∀ (t : String) (p : JwtPayload),
        p.gty = some "client-credentials" →
        verifyUserTokenClaimsDual t p =
          .error "User token cannot be a client credentials token") ∧
    (∀ (cfg : AuthConfig) (p : JwtPayload) (g : Option String),
        verifyAccessTokenClaims cfg { p with gty := g } =
          verifyAccessTokenClaims cfg p) ∧
    (∀ (p : JwtPayload) (g : Option String),
        verifyUserTokenClaimsMcp { p with gty := g } =
          verifyUserTokenClaimsMcp p) := by
  refine ⟨?_, ?_, ?_, ?_⟩
  · intro cfg p g hg hne hcc
    simp [verifyClientCredentialsClaims, hg, jsTruthy_some_of_ne hne, hcc]
  · intro t p h
    simp [verifyUserTokenClaimsDual, h]
  · intro cfg p g
    rfl
  · intro p g
    rfl

/-- Witness for C5_grant_type_checks at concrete payloads. -/
theorem C5_grant_type_checks_witness :
    verifyClientCredentialsClaims {}
        { sub := some "svc-1", gty := some "authorization_code" } =
      .error "Invalid grant type - expected client-credentials" ∧
    verifyUserTokenClaimsDual "tok"
        { sub := some "user-1", gty := some "client-credentials" } =
      .error "User token cannot be a client credentials token" :=
  ⟨C5_grant_type_checks.1 {} _ "authorization_code" rfl (by decide) (by decide),
   C5_grant_type_checks.2.1 "tok" _ rfl⟩

/-! ## Claim C6: required-scope enforcement -/

/-- Concrete refutation of claim C6 as stated: with required scopes a and b
and a token carrying only a, verification fails, but the raised error is the
message naming the whole configured required set, not the message naming
the missing set. -/
theorem C6_counterexample :
    verifyAccessTokenClaims { requiredScopes := ["a", "b"] }
        { sub := some "subject-1", scope := some "a" } =
      .error "Missing required scopes. Required: a, b" ∧
    "Missing required scopes. Required: a, b" ≠ specMissingScopesMessage ["b"] :=
  ⟨rfl, by decide⟩

/-- Claim C6 (amended): when a required-scope set is configured (and the
client id resolves and no allowlist blocks), verification succeeds exactly
when every required scope is contained in the token scope set, so a strict
superset succeeds; on failure the raised error names the full configured
required set rather than the missing subset. -/
theorem C6_required_scopes :
    ∀ (cfg : AuthConfig) (p : JwtPayload),
      cfg.requiredScopes ≠ [] →
      cfg.allowedClients = [] →
      jsTruthy (extractClientIdAccessToken p) = true →
      ((∃ r, verifyAccessTokenClaims cfg p = .ok r) ↔
          ∀ s ∈ cfg.requiredScopes, s ∈ extractScopesAccessToken p) ∧
      ((∃ s ∈ cfg.requiredScopes, s ∉ extractScopesAccessToken p) →
        verifyAccessTokenClaims cfg p =
          .error ("Missing required scopes. Required: " ++
            String.intercalate ", " cfg.requiredScopes)) := by
  intro cfg p hreq hallow hcid
  have hne : cfg.requiredScopes.isEmpty = false := by
    cases h : cfg.requiredScopes with
    | nil => exact absurd h hreq
    | cons a l => rfl
  have hmem :
      (cfg.requiredScopes.all fun s => (extractScopesAccessToken p).contains s) = true ↔
        ∀ s ∈ cfg.requiredScopes, s ∈ extractScopesAccessToken p := by
    simp [List.all_eq_true]
  by_cases hall :
      (cfg.requiredScopes.all fun s => (extractScopesAccessToken p).contains s) = true
  · have hres : verifyAccessTokenClaims cfg p =
        .ok { clientId := (extractClientIdAccessToken p).getD ""
              scopes := extractScopesAccessToken p } := by
      simp [verifyAccessTokenClaims, hcid, hallow, hne]
      exact hmem.mp hall
    refine ⟨⟨fun _ => hmem.mp hall, fun _ => ⟨_, hres⟩⟩, ?_⟩
    intro ⟨s, hs, hnot⟩
    exact absurd (hmem.mp hall s hs) hnot
  · have hallf :
        (cfg.requiredScopes.all fun s => (extractScopesAccessToken p).contains s) = false :=
      Bool.eq_false_iff.mpr hall
    have hex : ∃ s ∈ cfg.requiredScopes, s ∉ extractScopesAccessToken p := by
      simpa [List.all_eq_false] using hallf
    have hres : verifyAccessTokenClaims cfg p =
        .error ("Missing required scopes. Required: " ++
          String.intercalate ", " cfg.requiredScopes) := by
      simp [verifyAccessTokenClaims, hcid, hallow, hne, hex]
    refine ⟨⟨fun hok => ?_, fun hmall => absurd (hmem.mpr hmall) hall⟩, fun _ => hres⟩
    obtain ⟨r, hr⟩ := hok
    rw [hres] at hr
    exact Except.noConfusion hr

/-- Witness for C6_required_scopes: a strict superset of the required scopes
succeeds and the single-scope token fails with the full required set in the
message. -/
theorem C6_required_scopes_witness :
    (∃ r, verifyAccessTokenClaims { requiredScopes := ["a", "b"] }
        { sub := some "subject-1", scope := some "a b c" } = .ok r) ∧
    verifyAccessTokenClaims { requiredScopes := ["a", "b"] }
        { sub := some "subject-1", scope := some "a" } =
      .error "Missing required scopes. Required: a, b" := by
  constructor
  · exact (C6_required_scopes _ _ (by decide) rfl (by decide)).1.mpr (by decide)
  · exact (C6_required_scopes _ _ (by decide) rfl (by decide)).2 (by decide)

/-! ## Claim C3: user-token degrade invariant -/

/-- The AuthContext builder satisfies the userId-iff-dual invariant. -/
theorem buildAuthContext_userId_iff (ca : ClientAuth) (ua : Option UserAuthInfo) :
    (buildAuthContext ca ua).userId.isSome ↔
      (buildAuthContext ca ua).authMethod = .dualToken := by
  cases ua <;> simp [buildAuthContext]

/-- Claim C3: every successfully produced AuthContext carries a userId
exactly when its authMethod is dual-token; and a request with a verifying
client token and a present but failing user token still succeeds, in
client-only form with no userId and no error surfaced. -/
theorem C3_user_token_degrade :
    (∀ (ah xu xf : Option String)
        (vc : String → Except String ClientAuth)
        (vu : String → Except String UserAuthInfo) (ctx : AuthContext),
        verifyDualTokenAuth ah xu xf vc vu = .ok ctx →
        (ctx.userId.isSome ↔ ctx.authMethod = .dualToken)) ∧
    (∀ (s uh : String)
        (vc : String → Except String ClientAuth)
        (vu : String → Except String UserAuthInfo) (ca : ClientAuth) (msg : String),
        startsWithBearer s = true →
        vc (s.drop 7) = .ok ca →
        jsTruthy (some uh) = true →
        vu (stripBearer uh) = .error msg →
        verifyDualTokenAuth (some s) (some uh) none vc vu =
          .ok { clientId := ca.clientId, clientScopes := ca.scopes
                authMethod := .clientOnly }) := by
  constructor
  · intro ah xu xf vc vu ctx h
    unfold verifyDualTokenAuth at h
    cases ah with
    | none => exact Except.noConfusion h
    | some hh =>
      by_cases hb : startsWithBearer hh = true
      · simp only [hb, Bool.not_true, Bool.false_eq_true, if_false] at h
        cases hvc : vc (hh.drop 7) with
        | error e =>
          rw [hvc] at h
          exact Except.noConfusion h
        | ok ca =>
          rw [hvc] at h
          simp only [Except.ok.injEq] at h
          subst h
          exact buildAuthContext_userId_iff _ _
      · simp only [Bool.eq_false_iff.mpr hb, Bool.not_false, if_true] at h
        exact Except.noConfusion h
  · intro s uh vc vu ca msg hs hvc hu hvu
    simp [verifyDualTokenAuth, hs, hvc, jsOr, hu, hvu, buildAuthContext,
      Except.toOption]

/-- Witness for C3_user_token_degrade: a concrete request whose user token
header is present and rejected still authenticates client-only. -/
theorem C3_user_token_degrade_witness :
    verifyDualTokenAuth (some "Bearer tok") (some "Bearer bad") none
        (fun _ => .ok { clientId := "client-1", scopes := ["read"] })
        (fun _ => .error "User token has expired") =
      .ok { clientId := "client-1", clientScopes := ["read"]
            authMethod := .clientOnly } :=
  C3_user_token_degrade.2 "Bearer tok" "Bearer bad" _ _
    { clientId := "client-1", scopes := ["read"] } "User token has expired"
    (by decide) rfl (by decide) rfl

/-! ## Claim C7: retry count, timeouts, backoff -/

/-- Claim C7: when every attempt fails, callAgent makes exactly three
attempts, each handed the 30000 millisecond timeout, sleeps 1000 times two
to the attempt index between attempts, and fails with the attempt count and
the last observed message. -/
theorem C7_retry_and_backoff :
    ∀ (oracle : Nat → FetchOutcome) (m0 m1 m2 : String),
      oracle 0 = .failure m0 → oracle 1 = .failure m1 → oracle 2 = .failure m2 →
      callAgent oracle =
        { timeouts := [fetchTimeoutMs, fetchTimeoutMs, fetchTimeoutMs]
          waits := [1000 * 2 ^ 0, 1000 * 2 ^ 1]
          outcome := .error ("Failed after 3 attempts: " ++ m2) } := by
  intro oracle m0 m1 m2 h0 h1 h2
  simp [callAgent, callAgentLoop, h0, h1, h2]
  rfl

/-- Witness for C7_retry_and_backoff: the connection-refused oracle yields
the three attempts, the two sleeps of one and two seconds, and the
aggregated error. -/
theorem C7_retry_and_backoff_witness :
    callAgent (fun _ => .failure "connect ECONNREFUSED") =
      { timeouts := [30000, 30000, 30000]
        waits := [1000, 2000]
        outcome := .error "Failed after 3 attempts: connect ECONNREFUSED" } :=
  C7_retry_and_backoff _ "connect ECONNREFUSED" "connect ECONNREFUSED"
    "connect ECONNREFUSED" rfl rfl rfl

/-! ## Claim C4: backend-error surfacing on the two surfaces -/

/-- Concrete refutation of claim C4 as stated: on the REST surface, a
backend error after exhausted retries is answered with an HTTP 500
transport-level failure carrying an internal server error body, not with a
tool result flagged isError. -/
theorem C4_counterexample :
    (restToolHandler
        (fun _ => .error "Failed after 3 attempts: connect ECONNREFUSED")
        "view_cart").status = 500 ∧
    restToolHandler
        (fun _ => .error "Failed after 3 attempts: connect ECONNREFUSED")
        "view_cart" =
      { status := 500
        body := .internalError "Failed after 3 attempts: connect ECONNREFUSED" } :=
  ⟨rfl, rfl⟩

/-- Claim C4 (amended): when the backend fails, the streaming surface
returns a tool result with isError true carrying the message prefixed with
Error, while the REST surface returns an HTTP 500 response whose body
carries the message; the two surfaces do not surface the failure
uniformly. -/
theorem C4_backend_error_surfacing :
    (∀ (f : String → Except String String) (name agent e : String),
        toolAgentRoute name = some agent → f agent = .error e →
        mcpCallToolHandler f name =
          { content := [{ type := "text", text := "Error: " ++ e }]
            isError := some true }) ∧
    (∀ (f : String → Except String String) (name agent e : String),
        toolAgentRoute name = some agent → f agent = .error e →
        restToolHandler f name = { status := 500, body := .internalError e }) := by
  constructor <;>
    · intro f name agent e hroute hf
      simp [mcpCallToolHandler, restToolHandler, hroute, hf]

/-- Witness for C4_backend_error_surfacing at a concrete tool and error. -/
theorem C4_backend_error_surfacing_witness :
    mcpCallToolHandler (fun _ => .error "Failed after 3 attempts: timeout")
        "view_cart" =
      { content := [{ type := "text", text := "Error: Failed after 3 attempts: timeout" }]
        isError := some true } ∧
    restToolHandler (fun _ => .error "Failed after 3 attempts: timeout")
        "view_cart" =
      { status := 500, body := .internalError "Failed after 3 attempts: timeout" } :=
  ⟨C4_backend_error_surfacing.1 _ "view_cart" "cart" _ rfl rfl,
   C4_backend_error_surfacing.2 _ "view_cart" "cart" _ rfl rfl⟩

/-! ## Claim C1: token isolation across concurrent invocations -/

/-- Claim C1 evaluated at the failing interleaving: session one
authenticates with token-one, session two authenticates with token-two,
then session one invokes a tool; the Authorization header forwarded for that
invocation is Bearer token-two, the other session token, although the
invocation belongs to the context that stored token-one. -/
theorem C1_shared_client_token_leak :
    (runEvents {}
        [.authenticate { success := true, accessToken := some "token-one" },
         .authenticate { success := true, accessToken := some "token-two" },
         .invoke { success := true, accessToken := some "token-one" }]).2 =
      [[("Content-Type", "application/json"),
        ("Authorization", "Bearer token-two")]] ∧
    (AuthResult.accessToken { success := true, accessToken := some "token-one" } =
      some "token-one") ∧
    ("Bearer token-two" : String) ≠ "Bearer token-one" :=
  ⟨rfl, rfl, by decide⟩

/-! ## Claim C10: authentication mode none -/

/-- Claim C10: with MCP_AUTH_MODE set to none, verifyAuth answers success
for every request without consulting any header or verifier, the handler
gate does not reject, and no token is stored into the shared backend
client. -/
theorem C10_auth_mode_none :
    ∀ (key : Option String) (hdrs : RequestHeaders)
      (va : String → Except String ClientAuth)
      (vu : String → Except String MCPUserAuth),
      verifyAuth { authMode := "none", mcpApiKey := key } hdrs va vu =
        { success := true } ∧
      requestRejected (verifyAuth { authMode := "none", mcpApiKey := key } hdrs va vu) =
        false ∧
      ∀ s : ClientState,
        storeAuthTokens s (verifyAuth { authMode := "none", mcpApiKey := key } hdrs va vu) = s := by
  intro key hdrs va vu
  exact ⟨rfl, rfl, fun s => rfl⟩

/-! ## Claim C8: discovery surfaces expose one tool-name set -/

/-- String append is left-cancellative. -/
theorem strAppend_left_cancel {s a b : String} (h : s ++ a = s ++ b) : a = b := by
  cases s with
  | mk sd =>
    cases a with
    | mk ad =>
      cases b with
      | mk bd =>
        have h2 : sd ++ ad = sd ++ bd := congrArg String.data h
        exact congrArg String.mk (List.append_cancel_left h2)

/-- Claim C8: for any registry contents, the tool-name set of the streaming
tools/list response equals the set of names whose /tools/ path occurs in the
generated OpenAPI paths. -/
theorem C8_discovery_name_sets :
    ∀ (reg : List ToolDef) (n : String),
      n ∈ (listToolsResponse reg).map (fun t => t.name) ↔
        ("/tools/" ++ n) ∈ (generateOpenAPIPaths reg).map Prod.fst := by
  intro reg n
  simp only [listToolsResponse, generateOpenAPIPaths, List.map_map, List.mem_map,
    Function.comp]
  constructor
  · rintro ⟨t, ht, rfl⟩
    exact ⟨t, ht, rfl⟩
  · rintro ⟨t, ht, heq⟩
    exact ⟨t, ht, strAppend_left_cancel heq⟩

/-! ## Claim C9: shape of the served OpenAPI document -/

/-- Claim C9: the document generated over the static registry is OpenAPI
3.0.0, contains exactly one POST path per registered tool at /tools/ plus
the tool name with no duplicates, attaches the oauth2 security requirement
to every operation, and marks with a true x-openai-isConsequential value
exactly the three mutating tools. -/
theorem C9_openapi_document :
    ∀ serverUrl : String,
      (generateOpenAPISchema mcpTools serverUrl).openapi = "3.0.0" ∧
      (generateOpenAPISchema mcpTools serverUrl).paths.map Prod.fst =
        mcpTools.map (fun t => "/tools/" ++ t.name) ∧
      ((generateOpenAPISchema mcpTools serverUrl).paths.map Prod.fst).Nodup ∧
      (∀ e ∈ (generateOpenAPISchema mcpTools serverUrl).paths,
        e.2.security = [[("oauth2", [])]]) ∧
      ((generateOpenAPISchema mcpTools serverUrl).paths.filter
          (fun e => e.2.xOpenaiIsConsequential == some true)).map Prod.fst =
        ["/tools/add_to_cart", "/tools/checkout", "/tools/add_payment_method"] := by
  intro serverUrl
  refine ⟨rfl, rfl, ?_, ?_, rfl⟩
  · show (List.map Prod.fst (generateOpenAPIPaths mcpTools)).Nodup
    decide
  · show ∀ e ∈ generateOpenAPIPaths mcpTools, e.2.security = [[("oauth2", [])]]
    decide
